import Mathlib

/-!
Shallow embedding of the core of `src/Find_GitHub_UserNames.py`:
the search engine `search_github` (lines 27-92) and the history
recorder `save_to_excel` (lines 94-123).

The network is modelled as an oracle `net : Request → NetResult`;
`search_github` additionally returns the list of requests it issued,
so that "performs no network call" is expressible.  Exceptions of the
Python code are modelled by the `PyExc` type threaded through an
`Except`; the two `except` clauses of the source become the two match
arms wrapping `tryBody`.  The durable Excel store is modelled as an
optional list of rows (`none` = file absent) together with a fault
model saying whether the read (`pd.read_excel`) or the write
(`to_excel`) raises.
-/

namespace FindGitHubUserNames

/-- One element of the upstream JSON payload's `items` list, with the
four fields the code reads (`login`, `html_url`, `avatar_url`, `type`),
per the upstream API contract. -/
structure Item where
  login : String
  html_url : String
  avatar_url : String
  type : String
deriving DecidableEq

/-- An upstream HTTP response: status code, response headers
(modelled as an association list, first match wins), the optional
`items` list of the JSON payload (`none` = key absent), and the
HTTP reason phrase used in `raise_for_status` error messages. -/
structure Response where
  status_code : Nat
  headers : List (String × String)
  items : Option (List Item)
  reason : String
deriving DecidableEq

/-- Outcome of `requests.get`: either a response, or a raised
`requests.exceptions.RequestException` (connection error, timeout,
DNS failure) carrying its message. -/
inductive NetResult where
  | ok (resp : Response)
  | requestException (msg : String)
deriving DecidableEq

/-- The single outbound GET request `search_github` constructs
(source lines 44-56). -/
structure Request where
  url : String
  headers : List (String × String)
  params : List (String × String)
  timeout : Nat
deriving DecidableEq

/-- One user dictionary of the result list, with the keys the code
builds at lines 76-81 (`login`, `url`, `avatar_url`, `type`). -/
structure UserData where
  login : String
  url : String
  avatar_url : String
  type : String
deriving DecidableEq

/-- The value of a `search_github` call: the `(users, error)` tuple the
Python function returns, together with the trace of network requests it
performed (so the no-network-call property is statable). -/
structure SearchResult where
  users : List UserData
  error : Option String
  requests : List Request
deriving DecidableEq

/-- Header lookup, first match wins (models `dict` access on the
response headers; header names in this development are used with their
exact case). -/
def headerGet (headers : List (String × String)) (k : String) : Option String :=
  match headers with
  | [] => none
  | (k2, v) :: rest => if k = k2 then some v else headerGet rest k

/-- Accumulate a run of decimal digits; `none` as soon as a non-digit
appears. -/
def parseDigitsAux : List Char → Nat → Option Nat
  | [], acc => some acc
  | c :: cs, acc => if c.isDigit then parseDigitsAux cs (acc * 10 + (c.toNat - 48)) else none

/-- Python `int(s)` on a decimal string: `some` of the value, or `none`
when it raises `ValueError`.  Modelled for plain optionally-negated
digit strings, the format of the rate-limit headers (surrounding
whitespace, `+` signs and digit underscores are not modelled). -/
def pyInt? (s : String) : Option Int :=
  match s.data with
  | [] => none
  | c :: cs =>
    if c = '-' then
      match cs with
      | [] => none
      | _ :: _ => (parseDigitsAux cs 0).map (fun n => -(n : Int))
    else (parseDigitsAux (c :: cs) 0).map (fun n => (n : Int))

/-- Message of the `ValueError` raised by `int(s)` on a non-numeric
string. -/
def valueErrorMsg (s : String) : String :=
  "invalid literal for int() with base 10: \x27" ++ s ++ "\x27"

/-- Message of the `KeyError` raised by a missing dict key. -/
def keyErrorMsg (k : String) : String :=
  "\x27" ++ k ++ "\x27"

/-- The GET request built at source lines 44-56: `Accept` header always,
`Authorization: token <token>` only when `token` is truthy (not `None`
and not the empty string), query parameter `q = "<query> in:<search_type>"`,
fixed timeout 10. -/
def buildRequest (search_type query : String) (token : Option String) : Request :=
  let baseHeaders := [("Accept", "application/vnd.github.v3+json")]
  let headers :=
    match token with
    | some t => if t = "" then baseHeaders else baseHeaders ++ [("Authorization", "token " ++ t)]
    | none => baseHeaders
  { url := "https://api.github.com/search/users",
    headers := headers,
    params := [("q", query ++ " in:" ++ search_type)],
    timeout := 10 }

/-- A Python exception crossing the `try` block of `search_github`:
either a `requests.exceptions.RequestException` (which includes the
`HTTPError` of `raise_for_status`), or any other exception
(`KeyError`, `ValueError`, ...). -/
inductive PyExc where
  | requestException (msg : String)
  | otherException (msg : String)
deriving DecidableEq

/-- Message of the `HTTPError` raised by `response.raise_for_status()`
for a 4xx/5xx status. -/
def raiseForStatusMsg (resp : Response) : String :=
  if resp.status_code < 500 then
    toString resp.status_code ++ " Client Error: " ++ resp.reason ++
      " for url: https://api.github.com/search/users"
  else
    toString resp.status_code ++ " Server Error: " ++ resp.reason ++
      " for url: https://api.github.com/search/users"

/-- The result-list extraction loop of source lines 74-82: one
`UserData` per item, upstream order preserved, fields copied
verbatim (`login`, `html_url`, `avatar_url`, `type`). -/
def extractUsers (items : List Item) : List UserData :=
  items.map (fun u =>
    { login := u.login, url := u.html_url, avatar_url := u.avatar_url, type := u.type })

/-- Source lines 66-84: `raise_for_status` (an `HTTPError`, a
`RequestException`, for any 4xx/5xx status), then parse
`results.get('items', [])` and build the user list. -/
def afterRateCheck (resp : Response) : Except PyExc (List UserData × Option String) :=
  if 400 ≤ resp.status_code ∧ resp.status_code < 600 then
    .error (.requestException (raiseForStatusMsg resp))
  else
    .ok (extractUsers (resp.items.getD []), none)

/-- The body of the `try` block of `search_github` (source lines
50-84), given the outcome of `requests.get` and the current epoch
second `now` (`int(time.time())`).  The rate-limit branch (lines
59-64) runs first: on a 403 with the `X-RateLimit-Remaining` header
present, `int` conversion of that header, then of the
`X-RateLimit-Reset` header (whose absence is a `KeyError` and whose
non-numeric value is a `ValueError`), and the early return with the
wait-time message when the remaining quota is zero. -/
def tryBody (r : NetResult) (now : Int) : Except PyExc (List UserData × Option String) :=
  match r with
  | .requestException msg => .error (.requestException msg)
  | .ok resp =>
    if resp.status_code = 403 ∧ (headerGet resp.headers "X-RateLimit-Remaining").isSome then
      let remStr := (headerGet resp.headers "X-RateLimit-Remaining").getD ""
      match pyInt? remStr with
      | none => .error (.otherException (valueErrorMsg remStr))
      | some remaining =>
        if remaining = 0 then
          match headerGet resp.headers "X-RateLimit-Reset" with
          | none => .error (.otherException (keyErrorMsg "X-RateLimit-Reset"))
          | some resetStr =>
            match pyInt? resetStr with
            | none => .error (.otherException (valueErrorMsg resetStr))
            | some reset_time =>
              let wait_time := max 0 (reset_time - now)
              .ok ([], some ("GitHub API rate limit exceeded. Try again in " ++
                toString wait_time ++ " seconds or use a token."))
        else afterRateCheck resp
    else afterRateCheck resp

/-- `search_github(search_type, query, token)` (source lines 27-92),
with the network modelled by the oracle `net` and the current epoch
second by `now`.  An empty query short-circuits before any request;
otherwise exactly one request is issued and the two `except` clauses
(lines 85-92) turn raised exceptions into `([], error)` tuples. -/
def search_github (search_type query : String) (token : Option String)
    (net : Request → NetResult) (now : Int) : SearchResult :=
  if query = "" then
    { users := [], error := some "No query provided", requests := [] }
  else
    let req := buildRequest search_type query token
    match tryBody (net req) now with
    | .ok (users, err) => { users := users, error := err, requests := [req] }
    | .error (.requestException m) =>
      { users := [],
        error := some ("Request error searching by " ++ search_type ++ ": " ++ m),
        requests := [req] }
    | .error (.otherException m) =>
      { users := [],
        error := some ("Error searching by " ++ search_type ++ ": " ++ m),
        requests := [req] }

/-- A wall-clock instant, second resolution, as consumed by
`datetime.now().strftime("%Y-%m-%d %H:%M:%S")`. -/
structure DateTime where
  year : Nat
  month : Nat
  day : Nat
  hour : Nat
  minute : Nat
  second : Nat
deriving DecidableEq

/-- Zero-pad to two digits (`%m`, `%d`, `%H`, `%M`, `%S`). -/
def pad2 (n : Nat) : String :=
  if n < 10 then "0" ++ toString n else toString n

/-- Zero-pad to four digits (`%Y`). -/
def pad4 (n : Nat) : String :=
  if n < 10 then "000" ++ toString n
  else if n < 100 then "00" ++ toString n
  else if n < 1000 then "0" ++ toString n
  else toString n

/-- `strftime("%Y-%m-%d %H:%M:%S")` applied to a `DateTime`: the fixed
`YYYY-MM-DD HH:MM:SS` timestamp format of source line 96. -/
def strftimeYmdHMS (t : DateTime) : String :=
  pad4 t.year ++ "-" ++ pad2 t.month ++ "-" ++ pad2 t.day ++ " " ++
    pad2 t.hour ++ ":" ++ pad2 t.minute ++ ":" ++ pad2 t.second

/-- One row of the Excel store, columns
`Timestamp, Search Type, Input, Results, Result Count`. -/
structure HistoryRow where
  timestamp : String
  searchType : String
  input : String
  results : String
  resultCount : Nat
deriving DecidableEq

/-- The durable store: `none` when `github_search_results.xlsx` does
not exist, otherwise its rows in file order. -/
structure FSState where
  file : Option (List HistoryRow)
deriving DecidableEq

/-- Whether the read (`pd.read_excel`) or the write (`to_excel`) of one
`save_to_excel` call raises, with the exception message. -/
structure FaultModel where
  readFault : Option String
  writeFault : Option String
deriving DecidableEq

/-- A fault-free run: neither the read nor the write raises. -/
def noFaults : FaultModel :=
  { readFault := none, writeFault := none }

/-- The `new_entry` row built at source lines 96-106: current
timestamp, the search type and input verbatim, `Results` the
comma-space-joined logins (or the literal `No results` when the result
list is empty), `Result Count` the length of the result list. -/
def mkNewEntry (search_type input_data : String) (results : List UserData)
    (now : DateTime) : HistoryRow :=
  let usernames := results.map (fun u => u.login)
  { timestamp := strftimeYmdHMS now,
    searchType := search_type,
    input := input_data,
    results := if usernames.isEmpty then "No results" else String.intercalate ", " usernames,
    resultCount := results.length }

/-- `save_to_excel(search_type, input_data, results)` (source lines
94-123), with the wall clock, the store state and the fault model made
explicit.  Returns the boolean result of the Python function and the
store state afterwards: read the existing rows when the file exists,
append the new entry last, write everything back; any raised exception
is caught and reported as `false` (the store is then left as it was;
the on-disk state after a failed write is not modelled further, and
the fault-free theorems below never consult it). -/
def save_to_excel (search_type input_data : String) (results : List UserData)
    (now : DateTime) (fs : FSState) (f : FaultModel) : Bool × FSState :=
  let new_entry := mkNewEntry search_type input_data results now
  match fs.file with
  | some rows =>
    match f.readFault with
    | some _ => (false, fs)
    | none =>
      let updated_df := rows ++ [new_entry]
      match f.writeFault with
      | some _ => (false, fs)
      | none => (true, { file := some updated_df })
  | none =>
    match f.writeFault with
    | some _ => (false, fs)
    | none => (true, { file := some [new_entry] })

/-- The arguments of one `save_to_excel` call, with the wall-clock
instant of that call. -/
structure RecordCall where
  searchType : String
  input : String
  results : List UserData
  now : DateTime
deriving DecidableEq

/-- The row a `RecordCall` deposits in the store. -/
def rowOf (c : RecordCall) : HistoryRow :=
  mkNewEntry c.searchType c.input c.results c.now

/-- The store state after one fault-free `save_to_excel` call. -/
def applyRecord (fs : FSState) (c : RecordCall) : FSState :=
  (save_to_excel c.searchType c.input c.results c.now fs noFaults).2

/-- The store state after a sequence of fault-free `save_to_excel`
calls, made left to right. -/
def runRecords (fs : FSState) (calls : List RecordCall) : FSState :=
  calls.foldl applyRecord fs

/-! ## Theorems -/

/-- C1 counterexample: on an empty query the code returns the error
string `No query provided` (capital N), not the string
`no query provided` the claim names; shown at the concrete call
`search_github("email", "", None)`. -/
theorem emptyQuery_error_string_counterexample :
    (search_github "email" "" none (fun _ => NetResult.requestException "x") 0).error
        = some "No query provided" ∧
    (search_github "email" "" none (fun _ => NetResult.requestException "x") 0).error
        ≠ some "no query provided" := by
  constructor
  · rfl
  · decide

/-- C1 (amended): for every query whose text is empty, `search_github`
performs no network call and returns immediately with `users = []` and
the error string `No query provided` (a non-null error). -/
theorem emptyQuery_no_network_and_error (search_type : String) (token : Option String)
    (net : Request → NetResult) (now : Int) :
    search_github search_type "" token net now =
      { users := [], error := some "No query provided", requests := [] } := by
  simp [search_github]

/-- C2: on a 403 response whose `X-RateLimit-Remaining` header is
present and equals `"0"` (and whose `X-RateLimit-Reset` header parses
as an integer), `search_github` returns `users = []` and the
rate-limit error message embedding the wait time
`max 0 (reset - now)`, without raising: the result is the rate-limit
message, not the generic `raise_for_status` error, so this branch
takes priority over generic HTTP-error handling for status 403. -/
theorem rateLimit_wait_message (search_type query : String) (token : Option String)
    (net : Request → NetResult) (now : Int) (resp : Response)
    (resetStr : String) (reset_time : Int)
    (hq : query ≠ "")
    (hnet : net (buildRequest search_type query token) = NetResult.ok resp)
    (hstatus : resp.status_code = 403)
    (hrem : headerGet resp.headers "X-RateLimit-Remaining" = some "0")
    (hresetHdr : headerGet resp.headers "X-RateLimit-Reset" = some resetStr)
    (hparse : pyInt? resetStr = some reset_time) :
    search_github search_type query token net now =
      { users := [],
        error := some ("GitHub API rate limit exceeded. Try again in " ++
          toString (max 0 (reset_time - now)) ++ " seconds or use a token."),
        requests := [buildRequest search_type query token] } := by
  have h0 : pyInt? "0" = some 0 := rfl
  simp [search_github, tryBody, hq, hnet, hstatus, hrem, hresetHdr, hparse, h0]

/-- A concrete 403 rate-limited response: remaining quota `"0"`,
reset epoch 100. -/
def rateLimitedResp : Response :=
  { status_code := 403,
    headers := [("X-RateLimit-Remaining", "0"), ("X-RateLimit-Reset", "100")],
    items := none,
    reason := "Forbidden" }

/-- C2 witness: at `now = 40` against `rateLimitedResp` the wait time
is `max 0 (100 - 40) = 60` and the rate-limit message is returned. -/
theorem rateLimit_wait_message_witness :
    search_github "email" "ada" none (fun _ => NetResult.ok rateLimitedResp) 40 =
      { users := [],
        error := some "GitHub API rate limit exceeded. Try again in 60 seconds or use a token.",
        requests := [buildRequest "email" "ada" none] } :=
  rateLimit_wait_message "email" "ada" none (fun _ => NetResult.ok rateLimitedResp) 40
    rateLimitedResp "100" 100 (by decide) rfl rfl rfl rfl rfl

/-- C4: for a successful (status 200) upstream response whose payload
holds an item list (`none` = absent, treated as empty), `search_github`
returns one `UserData` per item, in payload order, with the fields
copied verbatim (`login`, `html_url`, `avatar_url`, `type`), the same
number of users as items, and `error = none`. -/
theorem success_maps_items (search_type query : String) (token : Option String)
    (net : Request → NetResult) (now : Int) (resp : Response)
    (hq : query ≠ "")
    (hnet : net (buildRequest search_type query token) = NetResult.ok resp)
    (hstatus : resp.status_code = 200) :
    (search_github search_type query token net now).users =
      (resp.items.getD []).map (fun u =>
        { login := u.login, url := u.html_url, avatar_url := u.avatar_url,
          type := u.type }) ∧
    (search_github search_type query token net now).users.length =
      (resp.items.getD []).length ∧
    (search_github search_type query token net now).error = none := by
  simp [search_github, tryBody, afterRateCheck, extractUsers, hq, hnet, hstatus]

/-- A concrete 200 response with two items, in order. -/
def twoItemResp : Response :=
  { status_code := 200,
    headers := [],
    items := some
      [{ login := "ada1", html_url := "u1", avatar_url := "a1", type := "User" },
       { login := "ada2", html_url := "u2", avatar_url := "a2", type := "Organization" }],
    reason := "OK" }

/-- C4 witness: against `twoItemResp` the two items come back as two
users, in order and verbatim, with no error. -/
theorem success_maps_items_witness :
    (search_github "name" "Ada Lovelace" none (fun _ => NetResult.ok twoItemResp) 0).users =
      [{ login := "ada1", url := "u1", avatar_url := "a1", type := "User" },
       { login := "ada2", url := "u2", avatar_url := "a2", type := "Organization" }] ∧
    (search_github "name" "Ada Lovelace" none (fun _ => NetResult.ok twoItemResp) 0).users.length = 2 ∧
    (search_github "name" "Ada Lovelace" none (fun _ => NetResult.ok twoItemResp) 0).error = none := by
  have h := success_maps_items "name" "Ada Lovelace" none
    (fun _ => NetResult.ok twoItemResp) 0 twoItemResp (by decide) rfl rfl
  exact ⟨h.1, h.2.1, h.2.2⟩

/-- C10: on a 403 whose `X-RateLimit-Remaining` header is present and
equals `"0"` but whose `X-RateLimit-Reset` header is absent or
non-numeric, `search_github` still returns `users = []` together with
a non-null error message (the `KeyError` or `ValueError` raised inside
the rate-limit branch is absorbed by the generic `except Exception`
handler, whose messages start with `Error searching by <type>: `),
and does not raise. -/
theorem rateLimit_reset_missing_absorbed (search_type query : String)
    (token : Option String) (net : Request → NetResult) (now : Int) (resp : Response)
    (hq : query ≠ "")
    (hnet : net (buildRequest search_type query token) = NetResult.ok resp)
    (hstatus : resp.status_code = 403)
    (hrem : headerGet resp.headers "X-RateLimit-Remaining" = some "0")
    (hreset : ∀ s, headerGet resp.headers "X-RateLimit-Reset" = some s → pyInt? s = none) :
    (search_github search_type query token net now).users = [] ∧
    ∃ m, (search_github search_type query token net now).error =
      some ("Error searching by " ++ search_type ++ ": " ++ m) := by
  have h0 : pyInt? "0" = some 0 := rfl
  cases hcase : headerGet resp.headers "X-RateLimit-Reset" with
  | none =>
    refine ⟨?_, keyErrorMsg "X-RateLimit-Reset", ?_⟩ <;>
      simp [search_github, tryBody, hq, hnet, hstatus, hrem, hcase, h0]
  | some s =>
    have hs := hreset s hcase
    refine ⟨?_, valueErrorMsg s, ?_⟩ <;>
      simp [search_github, tryBody, hq, hnet, hstatus, hrem, hcase, hs, h0]

/-- A concrete 403 response with remaining quota `"0"` and no
`X-RateLimit-Reset` header. -/
def noResetResp : Response :=
  { status_code := 403,
    headers := [("X-RateLimit-Remaining", "0")],
    items := none,
    reason := "Forbidden" }

/-- C10 witness: against `noResetResp` the call returns no users and a
generic-handler error message. -/
theorem rateLimit_reset_missing_absorbed_witness :
    (search_github "email" "ada" none (fun _ => NetResult.ok noResetResp) 0).users = [] ∧
    ∃ m, (search_github "email" "ada" none (fun _ => NetResult.ok noResetResp) 0).error =
      some ("Error searching by " ++ "email" ++ ": " ++ m) :=
  rateLimit_reset_missing_absorbed "email" "ada" none
    (fun _ => NetResult.ok noResetResp) 0 noResetResp (by decide) rfl rfl rfl
    (fun s h => Option.noConfusion h)

/-- C6: for a non-empty query, every failure outside the rate-limit
case (403 with the `X-RateLimit-Remaining` header present and equal to
zero) yields `users = []` and a context-prefixed error string, and
`search_github` returns a `SearchResult` (the embedding is a total
function: nothing is raised past this boundary).  Three conjuncts cover
the three failure paths: a transport-level failure (connection error,
timeout, DNS failure: the `requestException` network outcome) gives
`"Request error searching by <type>: <msg>"`; an error HTTP status
(4xx/5xx) that is not a 403 whose remaining-quota header parses to
zero — so also a 403 whose header is absent or carries a nonzero
value — falls through to `raise_for_status` and gives the same
context-prefixed form with its message; a 403 whose remaining-quota
header is present but non-numeric raises `ValueError` inside the
rate-limit branch and gives `"Error searching by <type>: <msg>"` from
the generic handler. -/
theorem failure_paths_return_outcome (search_type query : String)
    (token : Option String) (net : Request → NetResult) (now : Int)
    (hq : query ≠ "") :
    (∀ m, net (buildRequest search_type query token) = NetResult.requestException m →
      search_github search_type query token net now =
        { users := [],
          error := some ("Request error searching by " ++ search_type ++ ": " ++ m),
          requests := [buildRequest search_type query token] }) ∧
    (∀ resp, net (buildRequest search_type query token) = NetResult.ok resp →
      400 ≤ resp.status_code → resp.status_code < 600 →
      (resp.status_code = 403 →
        headerGet resp.headers "X-RateLimit-Remaining" = none ∨
        ∃ n, pyInt? ((headerGet resp.headers "X-RateLimit-Remaining").getD "") = some n ∧
          n ≠ 0) →
      search_github search_type query token net now =
        { users := [],
          error := some ("Request error searching by " ++ search_type ++ ": " ++
            raiseForStatusMsg resp),
          requests := [buildRequest search_type query token] }) ∧
    (∀ resp s, net (buildRequest search_type query token) = NetResult.ok resp →
      resp.status_code = 403 →
      headerGet resp.headers "X-RateLimit-Remaining" = some s →
      pyInt? s = none →
      search_github search_type query token net now =
        { users := [],
          error := some ("Error searching by " ++ search_type ++ ": " ++ valueErrorMsg s),
          requests := [buildRequest search_type query token] }) := by
  refine ⟨?_, ?_, ?_⟩
  · intro m hnet
    simp [search_github, tryBody, hq, hnet]
  · intro resp hnet h4 h6 hnot
    by_cases h403 : resp.status_code = 403
    · rcases hnot h403 with habsent | ⟨n, hn, hn0⟩
      · simp [search_github, tryBody, afterRateCheck, hq, hnet, habsent, h4, h6]
      · cases hrem : headerGet resp.headers "X-RateLimit-Remaining" with
        | none =>
          rw [hrem] at hn
          exact absurd hn (by simp [pyInt?])
        | some s =>
          rw [hrem] at hn
          simp only [Option.getD_some] at hn
          simp [search_github, tryBody, afterRateCheck, hq, hnet, hrem, hn, hn0, h4, h6, h403]
    · simp [search_github, tryBody, afterRateCheck, hq, hnet, h403, h4, h6]
  · intro resp s hnet h403 hrem hparse
    simp [search_github, tryBody, hq, hnet, h403, hrem, hparse]

/-- A concrete 500 response with no rate-limit headers. -/
def serverErrorResp : Response :=
  { status_code := 500, headers := [], items := none, reason := "Internal Server Error" }

/-- A concrete 403 response whose remaining quota is `"1"` (nonzero,
so outside the rate-limit case). -/
def quota403Resp : Response :=
  { status_code := 403,
    headers := [("X-RateLimit-Remaining", "1")],
    items := none,
    reason := "Forbidden" }

/-- C6 witness: a concrete transport failure produces the
`Request error searching by email: ...` outcome, and a concrete 403
with nonzero remaining quota falls through to the `raise_for_status`
outcome. -/
theorem failure_paths_return_outcome_witness :
    (search_github "email" "ada" none (fun _ => NetResult.requestException "timeout") 0 =
      { users := [],
        error := some ("Request error searching by " ++ "email" ++ ": " ++ "timeout"),
        requests := [buildRequest "email" "ada" none] }) ∧
    (search_github "email" "ada" none (fun _ => NetResult.ok quota403Resp) 0 =
      { users := [],
        error := some ("Request error searching by " ++ "email" ++ ": " ++
          raiseForStatusMsg quota403Resp),
        requests := [buildRequest "email" "ada" none] }) :=
  ⟨(failure_paths_return_outcome "email" "ada" none
      (fun _ => NetResult.requestException "timeout") 0 (by decide)).1 "timeout" rfl,
   (failure_paths_return_outcome "email" "ada" none
      (fun _ => NetResult.ok quota403Resp) 0 (by decide)).2.1 quota403Resp rfl
      (by decide) (by decide) (fun _ => Or.inr ⟨1, rfl, by decide⟩)⟩

/-- C8: for a non-empty query (with the search type one of `email` or
`name`), `search_github` issues exactly one GET request, whose `q`
parameter combines the raw text with the `in:<kind>` field-scope
qualifier, whose `Accept` header requests the versioned JSON media
type, whose `Authorization` header is present exactly when a credential
is set (non-`None` and non-empty) and is then `token <credential>`,
and whose client-side timeout is the fixed 10. -/
theorem request_construction (search_type query : String) (token : Option String)
    (net : Request → NetResult) (now : Int)
    (hq : query ≠ "")
    (hkind : search_type = "email" ∨ search_type = "name") :
    (search_github search_type query token net now).requests =
      [buildRequest search_type query token] ∧
    (buildRequest search_type query token).url = "https://api.github.com/search/users" ∧
    (buildRequest search_type query token).params =
      [("q", query ++ " in:" ++ search_type)] ∧
    headerGet (buildRequest search_type query token).headers "Accept" =
      some "application/vnd.github.v3+json" ∧
    headerGet (buildRequest search_type query token).headers "Authorization" =
      (match token with
       | some t => if t = "" then none else some ("token " ++ t)
       | none => none) ∧
    (buildRequest search_type query token).timeout = 10 := by
  refine ⟨?_, rfl, rfl, ?_, ?_, rfl⟩
  · unfold search_github
    rw [if_neg hq]
    rcases htry : tryBody (net (buildRequest search_type query token)) now with e | p
    · cases e <;> simp [htry]
    · simp [htry]
  · cases token with
    | none => rfl
    | some t =>
      by_cases ht : t = "" <;> simp [buildRequest, headerGet, ht]
  · cases token with
    | none => rfl
    | some t =>
      by_cases ht : t = "" <;> simp [buildRequest, headerGet, ht]

/-- C8 witness: the concrete call with search type `email`, query
`ada` and credential `tok` issues the one request with all the claimed
components. -/
theorem request_construction_witness :
    (search_github "email" "ada" (some "tok")
        (fun _ => NetResult.requestException "x") 0).requests =
      [buildRequest "email" "ada" (some "tok")] ∧
    (buildRequest "email" "ada" (some "tok")).url = "https://api.github.com/search/users" ∧
    (buildRequest "email" "ada" (some "tok")).params = [("q", "ada in:email")] ∧
    headerGet (buildRequest "email" "ada" (some "tok")).headers "Accept" =
      some "application/vnd.github.v3+json" ∧
    headerGet (buildRequest "email" "ada" (some "tok")).headers "Authorization" =
      some "token tok" ∧
    (buildRequest "email" "ada" (some "tok")).timeout = 10 :=
  request_construction "email" "ada" (some "tok")
    (fun _ => NetResult.requestException "x") 0 (by decide) (Or.inl rfl)

/-- C9: an empty-string credential behaves exactly as an absent one:
the built request is identical (in particular it carries no
`Authorization` header at all), and so is the whole `search_github`
result, for every network oracle — the code treats any falsy token as
unset. -/
theorem emptyToken_same_as_none (search_type query : String)
    (net : Request → NetResult) (now : Int) :
    buildRequest search_type query (some "") = buildRequest search_type query none ∧
    headerGet (buildRequest search_type query (some "")).headers "Authorization" = none ∧
    search_github search_type query (some "") net now =
      search_github search_type query none net now :=
  ⟨rfl, rfl, rfl⟩

/-- C3: for every input and every store state, `save_to_excel` returns
`true` exactly when the full read-modify-write cycle completes without
error: the read (only attempted when the file exists) does not raise
and the write does not raise.  Every failure yields the boolean
`false`; the embedding is a total function into `Bool × FSState`, so
no failure propagates as a raised exception. -/
theorem record_success_iff (search_type input_data : String) (results : List UserData)
    (t : DateTime) (fs : FSState) (f : FaultModel) :
    (save_to_excel search_type input_data results t fs f).1 = true ↔
      ((fs.file.isSome = true → f.readFault = none) ∧ f.writeFault = none) := by
  cases hfile : fs.file <;> cases hr : f.readFault <;> cases hw : f.writeFault <;>
    simp [save_to_excel, hfile, hr, hw]

/-- One fault-free `save_to_excel` call appends exactly its row to the
store (an absent file contributing no rows). -/
theorem applyRecord_file (fs : FSState) (c : RecordCall) :
    (applyRecord fs c).file = some (fs.file.getD [] ++ [rowOf c]) := by
  cases hfile : fs.file <;>
    simp [applyRecord, save_to_excel, noFaults, rowOf, hfile]

/-- Fault-free `save_to_excel` calls folded over an existing store
append their rows in call order. -/
theorem runRecords_file (rows : List HistoryRow) (calls : List RecordCall) :
    (runRecords { file := some rows } calls).file = some (rows ++ calls.map rowOf) := by
  induction calls generalizing rows with
  | nil => simp [runRecords]
  | cons c cs ih =>
    have hstep : runRecords { file := some rows } (c :: cs) =
        runRecords (applyRecord { file := some rows } c) cs := rfl
    have h1 : applyRecord { file := some rows } c = { file := some (rows ++ [rowOf c]) } := rfl
    rw [hstep, h1, ih]
    simp

/-- C5: starting from an absent store, a sequence of fault-free
`save_to_excel` calls leaves exactly one row per call, in call order:
the first call creates the store with its single row, every further
call appends its row as the last one while preserving all existing
rows, and every fault-free call reports success. -/
theorem sequential_records_accumulate (c : RecordCall) (calls : List RecordCall) :
    (runRecords { file := none } (c :: calls)).file =
      some (rowOf c :: calls.map rowOf) ∧
    (∀ d, (runRecords { file := none } ((c :: calls) ++ [d])).file =
      some ((rowOf c :: calls.map rowOf) ++ [rowOf d])) ∧
    (∀ (fs : FSState) (d : RecordCall),
      (save_to_excel d.searchType d.input d.results d.now fs noFaults).1 = true) := by
  have hfirst : ∀ (cs : List RecordCall),
      (runRecords { file := none } (c :: cs)).file = some (rowOf c :: cs.map rowOf) := by
    intro cs
    have hstep : runRecords { file := none } (c :: cs) =
        runRecords (applyRecord { file := none } c) cs := rfl
    have h1 : applyRecord { file := none } c = { file := some [rowOf c] } := rfl
    rw [hstep, h1, runRecords_file]
    simp
  refine ⟨hfirst calls, ?_, ?_⟩
  · intro d
    have := hfirst (calls ++ [d])
    simpa using this
  · intro fs d
    cases hfile : fs.file <;> simp [save_to_excel, noFaults, hfile]

/-- C7: the row a fault-free `save_to_excel` call deposits as the last
row of the store has the `strftime("%Y-%m-%d %H:%M:%S")` timestamp of
the call instant, the comma-space-joined logins of the given users as
its `Results` value (the literal `No results` when the user list is
empty), and the length of the user list as its `Result Count`; in
particular with `users = []` the row reads `No results` and `0`. -/
theorem recorded_row_fields (search_type input_data : String) (users : List UserData)
    (t : DateTime) (fs : FSState) :
    ((save_to_excel search_type input_data users t fs noFaults).2.file.getD []).getLast? =
      some { timestamp := strftimeYmdHMS t,
             searchType := search_type,
             input := input_data,
             results := if users = [] then "No results"
                        else String.intercalate ", " (users.map (fun u => u.login)),
             resultCount := users.length } ∧
    (users = [] →
      ((save_to_excel search_type input_data users t fs noFaults).2.file.getD []).getLast? =
        some { timestamp := strftimeYmdHMS t, searchType := search_type,
               input := input_data, results := "No results", resultCount := 0 }) := by
  have hrow : ∀ (rows : List HistoryRow),
      (rows ++ [mkNewEntry search_type input_data users t]).getLast? =
        some (mkNewEntry search_type input_data users t) := by
    intro rows
    rw [List.getLast?_append_cons]
    rfl
  constructor
  · cases hfile : fs.file with
    | none =>
      cases users <;>
        simp [save_to_excel, mkNewEntry, noFaults, hfile, hrow []]
    | some rows =>
      cases users <;>
        simp [save_to_excel, mkNewEntry, noFaults, hfile, hrow rows]
  · intro hu
    subst hu
    cases hfile : fs.file with
    | none => simp [save_to_excel, mkNewEntry, noFaults, hfile, hrow []]
    | some rows => simp [save_to_excel, mkNewEntry, noFaults, hfile, hrow rows]

/-- A concrete wall-clock instant. -/
def dt0 : DateTime :=
  { year := 2026, month := 10, day := 12, hour := 0, minute := 0, second := 0 }

/-- C3 witness: a fault-free call against an absent store returns
`true`. -/
theorem record_success_iff_witness :
    (save_to_excel "email" "ada" [] dt0 { file := none } noFaults).1 = true :=
  (record_success_iff "email" "ada" [] dt0 { file := none } noFaults).mpr
    (by simp [noFaults])

/-- A concrete `save_to_excel` call. -/
def callW : RecordCall :=
  { searchType := "email", input := "ada", results := [], now := dt0 }

/-- C5 witness: one call against the absent store creates the
one-row store, a further call appends, and a fault-free call
succeeds. -/
theorem sequential_records_accumulate_witness :
    (runRecords { file := none } [callW]).file = some [rowOf callW] ∧
    (runRecords { file := none } ([callW] ++ [callW])).file =
      some ([rowOf callW] ++ [rowOf callW]) ∧
    (save_to_excel callW.searchType callW.input callW.results callW.now
      { file := none } noFaults).1 = true := by
  have h := sequential_records_accumulate callW []
  exact ⟨h.1, h.2.1 callW, h.2.2 { file := none } callW⟩

/-- C7 witness: recording zero users against an absent store deposits
the row `("2026-10-12 00:00:00", "email", "ada", "No results", 0)`. -/
theorem recorded_row_fields_witness :
    ((save_to_excel "email" "ada" [] dt0 { file := none } noFaults).2.file.getD []).getLast? =
      some { timestamp := "2026-10-12 00:00:00", searchType := "email",
             input := "ada", results := "No results", resultCount := 0 } :=
  (recorded_row_fields "email" "ada" [] dt0 { file := none }).2 rfl

end FindGitHubUserNames
